import Mathlib

/-!
Shallow embedding of the multi-source ingestion pipeline of the
tube-engine repository (FastAPI + SQLAlchemy), covering:

  * the normalized-item contract          (app/schemas/entity.py, ContentCreate)
  * the catalog entities                  (app/models/entity.py, Agent / AgentContent)
  * the catalog writer and run coordinator (app/indexers/base.py, BaseIndexer)
  * the scheduler                         (app/services/scheduler.py, IndexingScheduler)
  * collector fetch loops                 (app/indexers/{reddit,github,dynamic,websearch}.py)

Conventions of the embedding:

  * Python exceptions are modelled with `Except String`; a Python function
    that may raise is embedded as a value or oracle of `Except` type.
  * The async SQLAlchemy session is modelled as an explicit `DB` value that
    is threaded through; `commit` makes the accumulated state durable and
    `rollback` restores the state the run started from.  `flush` assigns the
    autoincrement primary key (`DB.nextAgentId`).
  * Upstream HTTP traffic is modelled by response oracles supplied as
    arguments, so theorems quantify over every possible upstream behaviour.
  * Timestamps are `Nat`; `datetime.utcnow()` becomes an explicit `now`
    argument.
-/

namespace Tube

/-- Statistics dictionary `self.stats = {"indexed": 0, "skipped": 0, "errors": 0}`
kept by `BaseIndexer` (app/indexers/base.py line 29). -/
structure Stats where
  indexed : Nat
  skipped : Nat
  errors : Nat
deriving DecidableEq, Repr

/-- The freshly initialised statistics of a new indexer instance. -/
def Stats.init : Stats := ⟨0, 0, 0⟩

/-- Pydantic schema `ContentCreate` (app/schemas/entity.py): the normalized
item every collector produces.  Optional fields are `Option String`;
`tags`/`categories` default to `[]` as in the pydantic model. -/
structure ContentCreate where
  agent_id_external : String
  content_type : String
  title : String
  description : Option String := none
  content : Option String := none
  content_url : Option String := none
  thumbnail_url : Option String := none
  source_platform : Option String := none
  source_url : Option String := none
  tags : List String := []
  categories : List String := []
  language : Option String := none
  license : Option String := none
deriving DecidableEq, Repr

/-- Python truthiness of an `Optional[str]` value: `None` and the empty
string are falsy (used by `if content.source_url and ...`,
app/indexers/base.py line 84). -/
def optStrTruthy : Option String → Bool
  | none => false
  | some s => s ≠ ""

/-- Catalog entity `Agent` (app/models/entity.py).  Only the columns the
ingestion path reads or writes are carried; `total_creations` has column
default 0, and the code guards `None` with `(agent.total_creations or 0)`. -/
structure Agent where
  id : Nat
  agent_id : String
  name : String
  total_creations : Nat
deriving DecidableEq, Repr

/-- Catalog entity `AgentContent` (app/models/entity.py): the ContentCreate
payload minus `agent_id_external` (excluded by `model_dump`), plus the
resolved foreign key `agent_id` (app/indexers/base.py lines 94-97). -/
structure AgentContent where
  agent_id : Nat
  content_type : String
  title : String
  description : Option String
  content : Option String
  content_url : Option String
  thumbnail_url : Option String
  source_platform : Option String
  source_url : Option String
  tags : List String
  categories : List String
  language : Option String
  license : Option String
deriving DecidableEq, Repr

/-- Build the `AgentContent` row from a `ContentCreate`:
`content_data = content.model_dump(exclude=..); content_data["agent_id"] = agent.id;
AgentContent(**content_data)` (app/indexers/base.py lines 94-97). -/
def rowOfCreate (c : ContentCreate) (agentId : Nat) : AgentContent :=
  { agent_id := agentId
    content_type := c.content_type
    title := c.title
    description := c.description
    content := c.content
    content_url := c.content_url
    thumbnail_url := c.thumbnail_url
    source_platform := c.source_platform
    source_url := c.source_url
    tags := c.tags
    categories := c.categories
    language := c.language
    license := c.license }

/-- The catalog store as seen through one session: the agents table, the
agent_contents table, and the autoincrement counter for `Agent.id`. -/
structure DB where
  agents : List Agent
  contents : List AgentContent
  nextAgentId : Nat
deriving DecidableEq, Repr

/-- The empty catalog. -/
def DB.empty : DB := ⟨[], [], 0⟩

/-- Method `content_exists` (app/indexers/base.py lines 74-78): a select on
`AgentContent.source_url == source_url`. -/
def content_exists (db : DB) (source_url : String) : Bool :=
  db.contents.any (fun c => c.source_url = some source_url)

/-- Method `get_or_create_agent` (app/indexers/base.py lines 60-72): select
by `Agent.agent_id`; when absent, add a fresh `Agent` (column default
`total_creations = 0`) and flush, which assigns the autoincrement id. -/
def get_or_create_agent (db : DB) (agent_id : String) (name : String) :
    Agent × DB :=
  match db.agents.find? (fun ag => ag.agent_id = agent_id) with
  | some ag => (ag, db)
  | none =>
    let ag : Agent :=
      { id := db.nextAgentId, agent_id := agent_id, name := name
        total_creations := 0 }
    (ag, { db with agents := db.agents ++ [ag], nextAgentId := db.nextAgentId + 1 })

/-- Increment `agent.total_creations` in place
(`agent.total_creations = (agent.total_creations or 0) + 1`,
app/indexers/base.py line 101); the mutation is reflected into the agents
table for the row with the given primary key. -/
def bumpAgentTotal (db : DB) (agentId : Nat) : DB :=
  { db with
    agents := db.agents.map (fun ag =>
      if ag.id = agentId then { ag with total_creations := ag.total_creations + 1 }
      else ag) }

/-- Method `index_content` (app/indexers/base.py lines 80-109).  Returns the
updated session state, the updated statistics, and the created row
(`None` on the skipped-duplicate path).  The body's `try`/`except` catches
persistence exceptions; in this pure session model the catalog operations
themselves are total, so the `errors` branch of this method is not
exercised. -/
def index_content (db : DB) (s : Stats) (c : ContentCreate) :
    DB × Stats × Option AgentContent :=
  if optStrTruthy c.source_url &&
      content_exists db (c.source_url.getD "") then
    (db, { s with skipped := s.skipped + 1 }, none)
  else
    let agdb := get_or_create_agent db c.agent_id_external c.agent_id_external
    let row := rowOfCreate c agdb.1.id
    let db2 := { agdb.2 with contents := agdb.2.contents ++ [row] }
    (bumpAgentTotal db2 agdb.1.id, { s with indexed := s.indexed + 1 },
     some row)

/-- One iteration of the per-record loop of `run`
(app/indexers/base.py lines 130-137):

    try:
        content = self.parse_content(raw_item)
        if content:
            await self.index_content(content)
    except Exception:
        self.stats["errors"] += 1

`parse` returning `.error` is the inner exception path; `.ok none` is the
silent skip (`if content:` — a pydantic object is always truthy, so only
`None` is falsy). -/
def processItem {α : Type} (parse : α → Except String (Option ContentCreate))
    (acc : DB × Stats) (raw : α) : DB × Stats :=
  match parse raw with
  | .error _ => (acc.1, { acc.2 with errors := acc.2.errors + 1 })
  | .ok none => acc
  | .ok (some c) =>
    let (db, s, _) := index_content acc.1 acc.2 c
    (db, s)

/-- The whole per-record loop of `run` over the fetched batch. -/
def processAll {α : Type} (parse : α → Except String (Option ContentCreate))
    (raws : List α) (db : DB) (s : Stats) : DB × Stats :=
  raws.foldl (processItem parse) (db, s)

/-- Method `BaseIndexer.run` (app/indexers/base.py lines 111-146).

    try:
        raw_items = await self.fetch_content(since=since, limit=limit)
        for raw_item in raw_items: ...    # processAll
        await self.db.commit()
    except Exception:
        await self.db.rollback()
    return self.stats

The outer `try`/`except` swallows both a `fetch_content` exception and a
`commit` exception, rolling the session back (the store reverts to the
pre-run state) and still returning the statistics accumulated so far.
`commitOk` injects whether `commit` succeeds. -/
def run {α : Type} (fetch : Option Nat → Nat → Except String (List α))
    (parse : α → Except String (Option ContentCreate)) (commitOk : Bool)
    (since : Option Nat) (limit : Nat) (db : DB) : DB × Stats :=
  match fetch since limit with
  | .error _ => (db, Stats.init)
  | .ok raws =>
    let (db1, s) := processAll parse raws db Stats.init
    if commitOk then (db1, s) else (db, s)

/-- The behaviour of one platform's indexer instance, as the scheduler sees
it: its `fetch_content` oracle, its `parse_content`, and whether the final
`commit` succeeds.  Raw records have type `α`. -/
structure IndexerSpec (α : Type) where
  fetch : Option Nat → Nat → Except String (List α)
  parse : α → Except String (Option ContentCreate)
  commitOk : Bool

/-- The platform keys of the `indexers` dictionary in
`IndexingScheduler.get_indexer` (app/services/scheduler.py lines 41-63);
`get_indexer` returns `None` for any other platform id. -/
def KNOWN_PLATFORMS : List String :=
  ["github", "huggingface", "civitai", "youtube", "reddit", "arxiv",
   "dynamic", "moltbook", "websearch"]

/-- Result payload of `IndexingScheduler.run_indexer`: either the stats
dictionary of `BaseIndexer.run` or an error dictionary. -/
inductive RunResult where
  | stats (s : Stats)
  | error (msg : String)
deriving DecidableEq, Repr

/-- Whether a `run_indexer` result is the error-dictionary shape. -/
def RunResult.isError : RunResult → Bool
  | .stats _ => false
  | .error _ => true

/-- The scheduler's `self.last_run` mapping (platform id to timestamp),
held only in process memory. -/
abbrev SchedState := List (String × Nat)

/-- Lookup of `self.last_run.get(platform)`. -/
def lookupWm (st : SchedState) (platform : String) : Option Nat :=
  match List.find? (fun p : String × Nat => p.1 = platform) st with
  | some p => some p.2
  | none => none

/-- Assignment `self.last_run[platform] = now`. -/
def setWm (st : SchedState) (platform : String) (t : Nat) : SchedState :=
  match st with
  | [] => [(platform, t)]
  | p :: rest => if p.1 = platform then (platform, t) :: rest
                 else p :: setWm rest platform t

/-- Method `IndexingScheduler.run_indexer` (app/services/scheduler.py lines
66-82):

    indexer = self.get_indexer(platform, db)
    if not indexer: return {"error": f"Unknown platform: {platform}"}
    try:
        since = self.last_run.get(platform)
        stats = await indexer.run(since=since, limit=limit)
        self.last_run[platform] = datetime.utcnow()
        return stats
    except Exception as e:
        return {"error": str(e)}

`getSpec` resolves the per-platform indexer behaviour; `now` stands for
`datetime.utcnow()`.  Because `BaseIndexer.run` catches every exception
internally (see `run`), the embedded known-platform path never reaches the
`except` branch, so no error case appears on it. -/
def run_indexer {α : Type} (getSpec : String → IndexerSpec α)
    (platform : String) (limit : Nat) (st : SchedState) (now : Nat)
    (db : DB) : DB × SchedState × RunResult :=
  if KNOWN_PLATFORMS.contains platform then
    let spec := getSpec platform
    let since := lookupWm st platform
    let (db1, s) := run spec.fetch spec.parse spec.commitOk since limit db
    (db1, setWm st platform now, RunResult.stats s)
  else
    (db, st, RunResult.error ("Unknown platform: " ++ platform))

/-- The fixed platform list hard-coded in
`IndexingScheduler.run_all_indexers` (app/services/scheduler.py lines
86-94). -/
def RUN_ALL_PLATFORMS : List String :=
  ["websearch", "dynamic", "github", "huggingface", "civitai", "reddit",
   "arxiv"]

/-- The sequential loop of `run_all_indexers` (app/services/scheduler.py
lines 97-102):

    for platform in platforms:
        try:
            results[platform] = await self.run_indexer(platform, limit=limit)
            await asyncio.sleep(2)
        except Exception as e:
            results[platform] = {"error": str(e)}

Sources run strictly one after another; `asyncio.sleep(2)` advances the
clock by 2 after each source.  `run_indexer` is total in the embedding, so
the surrounding `except` in this loop has nothing to catch. -/
def runSeq {α : Type} (getSpec : String → IndexerSpec α)
    (platforms : List String) (limit : Nat) (st : SchedState) (now : Nat)
    (db : DB) : List (String × RunResult) × SchedState × Nat × DB :=
  match platforms with
  | [] => ([], st, now, db)
  | p :: rest =>
    let (db1, st1, r) := run_indexer getSpec p limit st now db
    let (results, st2, now2, db2) := runSeq getSpec rest limit st1 (now + 2) db1
    ((p, r) :: results, st2, now2, db2)

/-- Method `IndexingScheduler.run_all_indexers` (app/services/scheduler.py
lines 84-104): the sequential loop over the hard-coded platform list. -/
def run_all_indexers {α : Type} (getSpec : String → IndexerSpec α)
    (limit : Nat) (st : SchedState) (now : Nat) (db : DB) :
    List (String × RunResult) × SchedState × Nat × DB :=
  runSeq getSpec RUN_ALL_PLATFORMS limit st now db

/-! Collector models.  Upstream HTTP responses are supplied as oracles, so
every theorem quantifies over all upstream behaviour; an oracle returning
`.error` is a raised request exception. -/

/-- The `AI_SUBREDDITS` list of app/indexers/reddit.py. -/
def AI_SUBREDDITS : List String :=
  ["LocalLLaMA", "ChatGPT", "artificial", "MachineLearning", "OpenAI",
   "AnthropicAI", "AutoGPT", "LangChain", "StableDiffusion", "SillyTavernAI"]

/-- One subreddit listing response: HTTP status, and (when the status is
200) the `data.children[*].data` post dictionaries of the JSON body. -/
structure SubredditResp (α : Type) where
  status : Nat
  children : List α

/-- The request loop of `RedditIndexer.fetch_content`
(app/indexers/reddit.py lines 54-75): for each subreddit, issue one GET;
on status 200 append each post (tagged with its subreddit, the
`post_data["_subreddit"] = subreddit` assignment is modelled by pairing);
on status 429 log and `break`; on any other status fall through to the next
subreddit; a raised request exception is caught and the loop continues.
Returns the accumulated items and the number of HTTP requests issued. -/
def redditFetchAux {α : Type}
    (resp : String → Nat → Except String (SubredditResp α))
    (subs : List String) (perSub : Nat) : List (String × α) × Nat :=
  match subs with
  | [] => ([], 0)
  | s :: rest =>
    match resp s perSub with
    | .error _ =>
      let (it, n) := redditFetchAux resp rest perSub
      (it, n + 1)
    | .ok r =>
      if r.status = 200 then
        let (it, n) := redditFetchAux resp rest perSub
        (r.children.map (fun p => (s, p)) ++ it, n + 1)
      else if r.status = 429 then
        ([], 1)
      else
        let (it, n) := redditFetchAux resp rest perSub
        (it, n + 1)

/-- Method `RedditIndexer.fetch_content` (app/indexers/reddit.py lines
47-76): loop over `AI_SUBREDDITS[:5]` with per-request
`limit // len(AI_SUBREDDITS[:5])`, then `return items[:limit]`.  The second
component counts the HTTP requests issued during the run. -/
def reddit_fetch_content {α : Type}
    (resp : String → Nat → Except String (SubredditResp α))
    (_since : Option Nat) (limit : Nat) :
    List (String × α) × Nat :=
  let subs := AI_SUBREDDITS.take 5
  let (it, n) := redditFetchAux resp subs (limit / subs.length)
  (it.take limit, n)

/-- The `AI_KEYWORDS` list of app/indexers/github.py. -/
def AI_KEYWORDS : List String :=
  ["ai-agent", "autonomous-agent", "llm-agent", "gpt-agent", "auto-gpt",
   "babyagi", "langchain", "crewai", "autogen", "llamaindex",
   "agent-framework", "ai-assistant", "ai-generated", "auto-generated",
   "llm-generated"]

/-- One GitHub repository-search response: HTTP status and (when 200) the
`items` array of the JSON body. -/
structure GithubResp (α : Type) where
  status : Nat
  items : List α

/-- The request loop of `GitHubIndexer.fetch_content`
(app/indexers/github.py lines 62-89): for each keyword, one search request
(the oracle receives the keyword, the `since` watermark folded into the
query string, and `per_page`); on 200 extend `items`; on 403 log and
`break`; on any other status fall through; a raised request exception is
caught and the loop continues.  Also counts issued requests. -/
def githubFetchAux {α : Type}
    (resp : String → Option Nat → Nat → Except String (GithubResp α))
    (kws : List String) (since : Option Nat) (perPage : Nat) :
    List α × Nat :=
  match kws with
  | [] => ([], 0)
  | k :: rest =>
    match resp k since perPage with
    | .error _ =>
      let (it, n) := githubFetchAux resp rest since perPage
      (it, n + 1)
    | .ok r =>
      if r.status = 200 then
        let (it, n) := githubFetchAux resp rest since perPage
        (r.items ++ it, n + 1)
      else if r.status = 403 then
        ([], 1)
      else
        let (it, n) := githubFetchAux resp rest since perPage
        (it, n + 1)

/-- Method `GitHubIndexer.fetch_content` (app/indexers/github.py lines
55-91): loop over `AI_KEYWORDS[:5]` with
`per_page = min(limit // len(AI_KEYWORDS[:5]), 30)`, then
`return items[:limit]`. -/
def github_fetch_content {α : Type}
    (resp : String → Option Nat → Nat → Except String (GithubResp α))
    (since : Option Nat) (limit : Nat) : List α × Nat :=
  let kws := AI_KEYWORDS.take 5
  let (it, n) := githubFetchAux resp kws since (min (limit / kws.length) 30)
  (it.take limit, n)

/-- Method `DynamicWebIndexer.fetch_content` (app/indexers/dynamic.py lines
51-73): `asyncio.gather` of the four sub-fetches with
`return_exceptions=True` (each on `limit // 4`), then extend `items` with
every result that is a list, skip every result that is an exception, and
`return items[:limit]`. -/
def dynamic_fetch_content {α : Type}
    (hn devto ph medium : Nat → Except String (List α))
    (_since : Option Nat) (limit : Nat) : List α :=
  let results := [hn (limit / 4), devto (limit / 4), ph (limit / 4),
                  medium (limit / 4)]
  let items := results.foldl
    (fun acc r => match r with
      | .ok l => acc ++ l
      | .error _ => acc) []
  items.take limit

/-! Web-search collector (app/indexers/websearch.py).  Its raw records are
Python dictionaries with string values; they are modelled as association
lists. -/

/-- A Python `dict[str, str]` as an association list. -/
def Dict := List (String × String)
deriving DecidableEq, Repr

/-- Python `d.get(k, dflt)` for string-valued dictionaries. -/
def dictGet (d : Dict) (k dflt : String) : String :=
  match List.find? (fun p : String × String => p.1 = k) d with
  | some p => p.2
  | none => dflt

/-- Python `d[k] = v` (replace if present, insert otherwise). -/
def dictSet (d : Dict) (k v : String) : Dict :=
  match d with
  | [] => [(k, v)]
  | p :: rest => if p.1 = k then (k, v) :: rest else p :: dictSet rest k v

/-- Python truthiness of `d.get(k)` for string values: missing keys give
`None` and, like the empty string, are falsy. -/
def dictTruthy (d : Dict) (k : String) : Bool :=
  dictGet d k "" ≠ ""

/-- The shared `httpx.AsyncClient`: whether it has been closed (by leaving
the `async with` block), and the response oracle (HTTP status and body
text) used while it is open. -/
structure HttpClient where
  closed : Bool
  getResp : String → Except String (Nat × String)

/-- Issue `client.get(url)`: a closed httpx client raises
`RuntimeError("Cannot send a request, as the client has been closed.")`. -/
def clientGet (c : HttpClient) (url : String) : Except String (Nat × String) :=
  if c.closed then
    Except.error "Cannot send a request, as the client has been closed."
  else c.getResp url

/-- The `SEARCH_QUERIES` list of app/indexers/websearch.py. -/
def SEARCH_QUERIES : List String :=
  ["AI agent autonomous", "GPT agent framework", "LLM agent tutorial",
   "AI coding assistant", "autonomous AI bot", "AI generated content",
   "agent workflow automation"]

/-- The `feeds` list of `_fetch_discovery_feeds`
(app/indexers/websearch.py lines 127-134). -/
def DISCOVERY_FEEDS : List (String × String) :=
  [("https://r.jina.ai/http://feeds.feedburner.com/oreilly/radar", "oreilly"),
   ("https://r.jina.ai/http://feeds.arxiv.org/arxiv/cs.AI", "arxiv-rss"),
   ("https://r.jina.ai/https://www.artificialintelligence-news.com/feed/",
    "ai-news")]

/-- One line of the simplified feed parsing inside `_fetch_discovery_feeds`
(app/indexers/websearch.py lines 149-160): accumulate finished items and
the `current_item` under construction. -/
def feedStep (source : String) (acc : List Dict × Dict) (line : String) :
    List Dict × Dict :=
  let (items, cur) := acc
  if line.startsWith "Title:" then
    let items1 :=
      if dictTruthy cur "title" then items ++ [dictSet cur "_source" source]
      else items
    (items1, [("title", (line.drop 6).trim)])
  else if line.startsWith "URL:" then
    (items, dictSet cur "url" (line.drop 4).trim)
  else if dictTruthy cur "title" && !(dictTruthy cur "description") then
    (items, dictSet cur "description" (line.take 500))
  else
    (items, cur)

/-- The line loop of `_fetch_discovery_feeds` over one feed body, plus the
trailing flush of `current_item` (app/indexers/websearch.py lines
146-164). -/
def parseFeedText (source : String) (text : String) : List Dict :=
  let (items, cur) := (text.splitOn "\n").foldl (feedStep source) ([], [])
  if dictTruthy cur "title" then items ++ [dictSet cur "_source" source]
  else items

/-- One feed of `_fetch_discovery_feeds`: issue the GET on the shared
client; a raised exception is caught by the per-feed `except` and
contributes nothing; a non-200 status also contributes nothing. -/
def fetchFeed (c : HttpClient) (feed : String × String) : List Dict :=
  match clientGet c feed.1 with
  | .error _ => []
  | .ok r => if r.1 = 200 then parseFeedText feed.2 r.2 else []

/-- Method `WebSearchIndexer._fetch_discovery_feeds`
(app/indexers/websearch.py lines 120-169): loop over `feeds[:2]`, then
`return items[:limit]`. -/
def fetch_discovery_feeds (c : HttpClient) (limit : Nat) : List Dict :=
  ((DISCOVERY_FEEDS.take 2).foldl (fun acc f => acc ++ fetchFeed c f) []).take
    limit

/-- The DuckDuckGo phase of `WebSearchIndexer.fetch_content`
(app/indexers/websearch.py lines 51-61): inside the `async with` block,
for each of `SEARCH_QUERIES[:5]` extend `items` with
`_search_duckduckgo(client, query, limit // 5)`.  `_search_duckduckgo`
catches its own exceptions and returns a list, abstracted here by the
`ddg` oracle over the open client. -/
def websearchDdgPhase (ddg : String → Nat → List Dict) (limit : Nat) :
    List Dict :=
  (SEARCH_QUERIES.take 5).foldl (fun acc q => acc ++ ddg q (limit / 5)) []

/-- Method `WebSearchIndexer.fetch_content` (app/indexers/websearch.py
lines 42-70).  The `async with httpx.AsyncClient(...)` block contains only
the DuckDuckGo loop; the discovery-feed call
`self._fetch_discovery_feeds(client, limit // 2)` sits after the block, so
it receives the already-closed client.  Finally `return items[:limit]`. -/
def websearch_fetch_content (ddg : String → Nat → List Dict)
    (feedResp : String → Except String (Nat × String))
    (_since : Option Nat) (limit : Nat) : List Dict :=
  let items := websearchDdgPhase ddg limit
  let closedClient : HttpClient := { closed := true, getResp := feedResp }
  let items2 := items ++ fetch_discovery_feeds closedClient (limit / 2)
  items2.take limit

/-- Python `pat in s` for concrete non-empty patterns: `s.splitOn pat` has
more than one piece exactly when `pat` occurs in `s`. -/
def strContains (s pat : String) : Bool :=
  (s.splitOn pat).length ≥ 2

/-- The `urlparse(url).netloc` of `WebSearchIndexer.parse_content`: the
text between the first "//" and the following "/", "?" or "#" delimiter
(urllib semantics on the well-formed URLs this path sees). -/
def netloc (url : String) : String :=
  match url.splitOn "//" with
  | _ :: rest :: _ =>
    let hostPath := (rest.splitOn "/").headD ""
    let hostQ := (hostPath.splitOn "?").headD ""
    (hostQ.splitOn "#").headD ""
  | _ => ""

/-- Method `WebSearchIndexer.parse_content` (app/indexers/websearch.py
lines 171-213).  `if not raw_data` is the empty-dictionary test; records
missing `url` or `title` return `None`; the content type is derived from
the URL shape; the platform domain strips every "www." occurrence, as
`str.replace` does.  The `try` around `urlparse` never fires in this
model, since `netloc` is total. -/
def websearch_parse_content (raw : Dict) : Option ContentCreate :=
  if raw.isEmpty then none
  else
    let source := dictGet raw "_source" "web"
    let title := dictGet raw "title" ""
    let url := dictGet raw "url" ""
    let description := dictGet raw "description" ""
    let query := dictGet raw "_query" "ai"
    if url = "" || title = "" then none
    else
      let ctype :=
        if strContains url "youtube.com" || strContains url "vimeo.com" then
          "video"
        else if strContains url "github.com" then "code"
        else if strContains url "arxiv.org" then "research"
        else if strContains url "medium.com" || strContains url "blog" then
          "document"
        else "post"
      let domain := (netloc url).replace "www." ""
      some
        { agent_id_external := "web:" ++ domain
          content_type := ctype
          title := title
          description := some
            (if description ≠ "" then description.take 500
             else "Found via search: " ++ query)
          content_url := some url
          source_platform := some (domain.take 50)
          source_url := some url
          tags := [query, source, ctype] }

/-! Theorems settling the claims. -/

/-- Upstream behaviour of the scenario with two discussion sub-sources that
each return 3 posts while the remaining sub-sources return none. -/
def twoSubOracle : String → Nat → Except String (SubredditResp Nat) :=
  fun s _ =>
    if s = "LocalLLaMA" then Except.ok ⟨200, [1, 2, 3]⟩
    else if s = "ChatGPT" then Except.ok ⟨200, [4, 5, 6]⟩
    else Except.ok ⟨200, []⟩

/-- C5: for every aggregating collector (the Reddit multi-subreddit loop
and the dynamic four-source gather), every since value and every limit, the
sequence returned by fetch has length at most limit, however many raw items
the sub-sources collectively returned; and in the concrete scenario of two
discussion sources each returning 3 posts with limit 4, fetch returns
exactly 4 merged items. -/
theorem C5_fetch_limit_bound :
    (∀ (α : Type) (resp : String → Nat → Except String (SubredditResp α))
        (since : Option Nat) (limit : Nat),
        (reddit_fetch_content resp since limit).1.length ≤ limit) ∧
    (∀ (α : Type) (hn devto ph medium : Nat → Except String (List α))
        (since : Option Nat) (limit : Nat),
        (dynamic_fetch_content hn devto ph medium since limit).length ≤ limit) ∧
    (∀ (α : Type)
        (resp : String → Option Nat → Nat → Except String (GithubResp α))
        (since : Option Nat) (limit : Nat),
        (github_fetch_content resp since limit).1.length ≤ limit) ∧
    (reddit_fetch_content twoSubOracle none 4).1.length = 4 := by
  refine ⟨?_, ?_, ?_, ?_⟩
  · intro α resp since limit
    simp [reddit_fetch_content]
  · intro α hn devto ph medium since limit
    simp [dynamic_fetch_content]
  · intro α resp since limit
    simp [github_fetch_content]
  · rfl

/-- C10: the discovery-feed sub-fetch of the web-search collector runs on
the HTTP client that the preceding async-with block has already closed, so
every feed request fails, the per-feed handler swallows the failure, the
discovery feeds contribute zero items, and the fetch result is exactly the
DuckDuckGo phase truncated to the limit — for every since, limit, search
oracle and feed oracle. -/
theorem C10_discovery_feeds_dead :
    ∀ (ddg : String → Nat → List Dict)
      (feedResp : String → Except String (Nat × String))
      (since : Option Nat) (limit : Nat),
      fetch_discovery_feeds { closed := true, getResp := feedResp }
          (limit / 2) = [] ∧
      websearch_fetch_content ddg feedResp since limit =
        (websearchDdgPhase ddg limit).take limit := by
  intro ddg feedResp since limit
  constructor
  · simp [fetch_discovery_feeds, fetchFeed, clientGet, DISCOVERY_FEEDS]
  · simp [websearch_fetch_content, fetch_discovery_feeds, fetchFeed,
      clientGet, DISCOVERY_FEEDS]

/-- Lift of `WebSearchIndexer.parse_content` to the exception-aware parse
surface of the run loop: the Python method only returns (it raises no
exception of its own), so the lift always succeeds. -/
def wsExceptParse : Dict → Except String (Option ContentCreate) :=
  fun d => Except.ok (websearch_parse_content d)

/-- A web-search raw record missing both the title and the identity URL. -/
def missingIdRec : Dict :=
  [("description", "a record with no title and no url")]

/-- A well-formed web-search raw record. -/
def goodSearchRec : Dict :=
  [("title", "An AI agent"), ("url", "https://example.com/agent"),
   ("_query", "AI agent autonomous"), ("_source", "duckduckgo")]

/-- C8: a raw record on which normalize returns absent is silently
excluded from the run: the batch with the record and the batch without it
produce the same session state and the same three counters, wherever the
record sits in the batch. -/
theorem C8_absent_record_excluded :
    ∀ (α : Type) (parse : α → Except String (Option ContentCreate))
      (pre post : List α) (bad : α) (db : DB) (s : Stats),
      parse bad = Except.ok none →
      processAll parse (pre ++ bad :: post) db s =
        processAll parse (pre ++ post) db s := by
  intro α parse pre post bad db s h
  simp only [processAll, List.foldl_append, List.foldl_cons]
  congr 1
  simp [processItem, h]

/-- Witness for C8: the web-search normalizer maps the record missing both
title and URL to absent, and the run over a two-record batch equals the run
over the batch without that record. -/
theorem C8_absent_record_excluded_witness :
    wsExceptParse missingIdRec = Except.ok none ∧
    processAll wsExceptParse [goodSearchRec, missingIdRec] DB.empty
        Stats.init =
      processAll wsExceptParse [goodSearchRec] DB.empty Stats.init :=
  ⟨by rfl,
   C8_absent_record_excluded Dict wsExceptParse [goodSearchRec] []
     missingIdRec DB.empty Stats.init (by rfl)⟩

/-- Fetch step of the five-record scenario. -/
def fiveRecordFetch : Option Nat → Nat → Except String (List Nat) :=
  fun _ _ => Except.ok [1, 2, 3, 4, 5]

/-- Normalized item produced for record number `i` of the scenario; the
items carry distinct source URLs. -/
def numberedItem (i : Nat) : ContentCreate :=
  { agent_id_external := "web:example.com"
    content_type := "post"
    title := "item " ++ toString i
    source_url := some ("https://example.com/" ++ toString i) }

/-- Parse step of the five-record scenario: normalizing record 3 raises,
every other record normalizes to a valid item. -/
def fiveRecordParse : Nat → Except String (Option ContentCreate) :=
  fun i =>
    if i = 3 then Except.error "normalize failed"
    else Except.ok (some (numberedItem i))

/-- C2: an exception thrown while normalizing one record is caught,
increments the errors counter by exactly one, and processing continues
with the next record; and in the concrete batch of 5 records where record
3 throws, the run ends with indexed 4, skipped 0, errors 1 and commits all
4 valid items. -/
theorem C2_partial_failure_isolation :
    (∀ (α : Type) (parse : α → Except String (Option ContentCreate))
        (pre post : List α) (bad : α) (db : DB) (s : Stats) (msg : String),
        parse bad = Except.error msg →
        processAll parse (pre ++ bad :: post) db s =
          processAll parse post (processAll parse pre db s).1
            { (processAll parse pre db s).2 with
              errors := (processAll parse pre db s).2.errors + 1 }) ∧
    (run fiveRecordFetch fiveRecordParse true none 5 DB.empty).2 =
        ⟨4, 0, 1⟩ ∧
    (run fiveRecordFetch fiveRecordParse true none 5
        DB.empty).1.contents.length = 4 := by
  refine ⟨?_, by rfl, by rfl⟩
  intro α parse pre post bad db s msg h
  simp only [processAll, List.foldl_append, List.foldl_cons]
  congr 1
  simp [processItem, h]

/-- Witness for C2: the general isolation statement applied to the
five-record scenario, discharging the hypothesis that record 3 throws. -/
theorem C2_partial_failure_isolation_witness :
    fiveRecordParse 3 = Except.error "normalize failed" ∧
    processAll fiveRecordParse ([1, 2] ++ 3 :: [4, 5]) DB.empty Stats.init =
      processAll fiveRecordParse [4, 5]
        (processAll fiveRecordParse [1, 2] DB.empty Stats.init).1
        { (processAll fiveRecordParse [1, 2] DB.empty Stats.init).2 with
          errors :=
            (processAll fiveRecordParse [1, 2] DB.empty
                Stats.init).2.errors + 1 } :=
  ⟨by rfl,
   C2_partial_failure_isolation.1 Nat fiveRecordParse [1, 2] [4, 5] 3
     DB.empty Stats.init "normalize failed" (by rfl)⟩

/-- Resolving or creating an agent never touches the contents table. -/
theorem get_or_create_agent_contents (db : DB) (a n : String) :
    (get_or_create_agent db a n).2.contents = db.contents := by
  unfold get_or_create_agent
  cases db.agents.find? (fun ag => ag.agent_id = a) <;> rfl

/-- Incrementing an agent counter never touches the contents table. -/
theorem bumpAgentTotal_contents (db : DB) (i : Nat) :
    (bumpAgentTotal db i).contents = db.contents := rfl

/-- On a non-duplicate item, `index_content` appends exactly the one new
row to the contents table. -/
theorem index_content_contents_of_fresh (db : DB) (s : Stats)
    (c : ContentCreate) (u : String) (hu : c.source_url = some u)
    (hex : content_exists db u = false) :
    (index_content db s c).1.contents =
      db.contents ++
        [rowOfCreate c
          (get_or_create_agent db c.agent_id_external
              c.agent_id_external).1.id] := by
  have hcond : (optStrTruthy c.source_url &&
      content_exists db (c.source_url.getD "")) = false := by
    simp [hu, hex]
  simp [index_content, hcond, bumpAgentTotal_contents,
    get_or_create_agent_contents]

/-- On a duplicate source URL, `index_content` takes the skip branch:
no mutation, skipped counter incremented, outcome `none`. -/
theorem index_content_dup (db : DB) (s : Stats) (c : ContentCreate)
    (u : String) (hu : c.source_url = some u) (hne : u ≠ "")
    (hex : content_exists db u = true) :
    index_content db s c = (db, { s with skipped := s.skipped + 1 }, none) := by
  have htr : optStrTruthy c.source_url = true := by
    simp [hu, optStrTruthy, hne]
  have hex2 : content_exists db (c.source_url.getD "") = true := by
    rw [hu]
    exact hex
  simp [index_content, htr, hex2]

/-- No row carries the URL when the duplicate check reports it absent. -/
theorem countP_url_zero (db : DB) (u : String)
    (hex : content_exists db u = false) :
    db.contents.countP (fun row => row.source_url = some u) = 0 := by
  simp only [content_exists, List.any_eq_false, decide_eq_true_eq] at hex
  simp only [List.countP_eq_zero, decide_eq_true_eq]
  exact hex

/-- C3: upsert is idempotent on the source URL.  For an item whose source
URL is non-empty and not yet in the catalog, a second `index_content` in
sequence performs no mutation at all (the whole store is unchanged),
reports the skipped-duplicate outcome (`none`, with fresh second-run
statistics `indexed=0, skipped=1`), and the catalog holds exactly one
Content row with that URL. -/
theorem C3_dedup_idempotent :
    ∀ (c : ContentCreate) (u : String) (db0 : DB) (s0 : Stats),
      c.source_url = some u → u ≠ "" → content_exists db0 u = false →
      index_content (index_content db0 s0 c).1 Stats.init c =
          ((index_content db0 s0 c).1, ⟨0, 1, 0⟩, none) ∧
      (index_content db0 s0 c).1.contents.countP
          (fun row => row.source_url = some u) = 1 := by
  intro c u db0 s0 hu hne hex
  have hcont1 := index_content_contents_of_fresh db0 s0 c u hu hex
  have hex1 : content_exists (index_content db0 s0 c).1 u = true := by
    simp [content_exists, hcont1, rowOfCreate, hu]
  constructor
  · rw [index_content_dup (index_content db0 s0 c).1 Stats.init c u hu hne
      hex1]
    rfl
  · simp [hcont1, List.countP_append, countP_url_zero db0 u hex,
      rowOfCreate, hu]

/-- Witness item for the dedup and agent-reuse claims. -/
def itemA : ContentCreate :=
  { agent_id_external := "web:example.com"
    content_type := "post"
    title := "first item"
    source_url := some "https://example.com/a" }

/-- Witness for C3: the dedup theorem applied to a concrete item over the
empty catalog. -/
theorem C3_dedup_idempotent_witness :
    itemA.source_url = some "https://example.com/a" ∧
    ("https://example.com/a" : String) ≠ "" ∧
    content_exists DB.empty "https://example.com/a" = false ∧
    (index_content (index_content DB.empty Stats.init itemA).1 Stats.init
          itemA =
        ((index_content DB.empty Stats.init itemA).1, ⟨0, 1, 0⟩, none) ∧
      (index_content DB.empty Stats.init itemA).1.contents.countP
          (fun row => row.source_url = some "https://example.com/a") = 1) :=
  ⟨by rfl, by decide, by rfl,
   C3_dedup_idempotent itemA "https://example.com/a" DB.empty Stats.init
     (by rfl) (by decide) (by rfl)⟩

/-- Bumping an id that no agent of the list carries leaves the list
unchanged. -/
theorem map_bump_of_ne (l : List Agent) (N : Nat)
    (h : ∀ ag ∈ l, ag.id ≠ N) :
    l.map (fun ag =>
      if ag.id = N then { ag with total_creations := ag.total_creations + 1 }
      else ag) = l := by
  conv_rhs => rw [← List.map_id l]
  exact List.map_congr_left fun ag hag => by simp [h ag hag]

/-- C4: two successfully written items that share one external agent id
but carry different source URLs leave exactly one Agent row for that id,
with `total_creations = 2`, the agent having been created lazily on the
first item; the run counters after the two writes are `indexed=2`. -/
theorem C4_agent_reuse :
    ∀ (c1 c2 : ContentCreate) (a u1 u2 : String) (db0 : DB)
      (r1 r2 : DB × Stats × Option AgentContent),
      c1.agent_id_external = a → c2.agent_id_external = a →
      c1.source_url = some u1 → c2.source_url = some u2 →
      u1 ≠ "" → u2 ≠ "" → u1 ≠ u2 →
      content_exists db0 u1 = false → content_exists db0 u2 = false →
      (∀ ag ∈ db0.agents, ag.agent_id ≠ a) →
      (∀ ag ∈ db0.agents, ag.id < db0.nextAgentId) →
      r1 = index_content db0 Stats.init c1 →
      r2 = index_content r1.1 r1.2.1 c2 →
      r2.1.agents.countP (fun ag => ag.agent_id = a) = 1 ∧
      (∀ ag ∈ r2.1.agents, ag.agent_id = a → ag.total_creations = 2) ∧
      r2.2.1 = ⟨2, 0, 0⟩ := by
  intro c1 c2 a u1 u2 db0 r1 r2 ha1 ha2 hu1 hu2 hne1 hne2 hne12 hex1 hex2
    hagent hid hr1 hr2
  subst ha1
  have hidne : ∀ ag ∈ db0.agents, ag.id ≠ db0.nextAgentId := by
    intro ag hag
    exact Nat.ne_of_lt (hid ag hag)
  have hfind1 : db0.agents.find?
      (fun ag => ag.agent_id = c1.agent_id_external) = none := by
    rw [List.find?_eq_none]
    intro ag hag
    simpa using hagent ag hag
  have hga1 : get_or_create_agent db0 c1.agent_id_external
      c1.agent_id_external =
      (⟨db0.nextAgentId, c1.agent_id_external, c1.agent_id_external, 0⟩,
       ⟨db0.agents ++
          [⟨db0.nextAgentId, c1.agent_id_external, c1.agent_id_external, 0⟩],
        db0.contents, db0.nextAgentId + 1⟩) := by
    simp [get_or_create_agent, hfind1]
  have hcond1 : (optStrTruthy c1.source_url &&
      content_exists db0 (c1.source_url.getD "")) = false := by
    simp [hu1, hex1]
  have h1 : r1 =
      (⟨db0.agents ++
          [⟨db0.nextAgentId, c1.agent_id_external, c1.agent_id_external, 1⟩],
        db0.contents ++ [rowOfCreate c1 db0.nextAgentId],
        db0.nextAgentId + 1⟩,
       ⟨1, 0, 0⟩, some (rowOfCreate c1 db0.nextAgentId)) := by
    rw [hr1]
    simp [index_content, hcond1, hga1, Stats.init, bumpAgentTotal,
      List.map_append, map_bump_of_ne db0.agents db0.nextAgentId hidne]
  have hr11 : r1.1 =
      ⟨db0.agents ++
          [⟨db0.nextAgentId, c1.agent_id_external, c1.agent_id_external, 1⟩],
        db0.contents ++ [rowOfCreate c1 db0.nextAgentId],
        db0.nextAgentId + 1⟩ := by
    rw [h1]
  have hr121 : r1.2.1 = ⟨1, 0, 0⟩ := by
    rw [h1]
  set db1 : DB :=
    (⟨db0.agents ++
        [⟨db0.nextAgentId, c1.agent_id_external, c1.agent_id_external, 1⟩],
      db0.contents ++ [rowOfCreate c1 db0.nextAgentId],
      db0.nextAgentId + 1⟩ : DB) with hdb1
  have hex2' : content_exists db1 u2 = false := by
    rw [hdb1]
    simp only [content_exists] at hex2 ⊢
    simp [hex2, rowOfCreate, hu1, hne12]
  have hcond2 : (optStrTruthy c2.source_url &&
      content_exists db1 (c2.source_url.getD "")) = false := by
    simp [hu2, hex2']
  have hfind2 : db1.agents.find?
      (fun ag => ag.agent_id = c2.agent_id_external) =
      some ⟨db0.nextAgentId, c1.agent_id_external, c1.agent_id_external,
        1⟩ := by
    have hnone : db0.agents.find?
        (fun ag => ag.agent_id = c2.agent_id_external) = none := by
      rw [List.find?_eq_none]
      intro ag hag
      simpa [ha2] using hagent ag hag
    rw [hdb1]
    simp [List.find?_append, hnone, ha2]
    exact Or.inr hagent
  have hga2 : get_or_create_agent db1 c2.agent_id_external
      c2.agent_id_external =
      (⟨db0.nextAgentId, c1.agent_id_external, c1.agent_id_external, 1⟩,
       db1) := by
    simp [get_or_create_agent, hfind2]
  have h2 : r2 =
      (⟨db0.agents ++
          [⟨db0.nextAgentId, c1.agent_id_external, c1.agent_id_external, 2⟩],
        db0.contents ++ [rowOfCreate c1 db0.nextAgentId,
          rowOfCreate c2 db0.nextAgentId],
        db0.nextAgentId + 1⟩,
       ⟨2, 0, 0⟩, some (rowOfCreate c2 db0.nextAgentId)) := by
    rw [hr2, hr121, hr11]
    have hstep : index_content db1 ⟨1, 0, 0⟩ c2 =
        (bumpAgentTotal
           ⟨db0.agents ++
              [⟨db0.nextAgentId, c1.agent_id_external,
                c1.agent_id_external, 1⟩],
            db0.contents ++ [rowOfCreate c1 db0.nextAgentId,
              rowOfCreate c2 db0.nextAgentId],
            db0.nextAgentId + 1⟩ db0.nextAgentId,
         ⟨2, 0, 0⟩, some (rowOfCreate c2 db0.nextAgentId)) := by
      simp [index_content, hcond2, hga2, hdb1]
    rw [hstep]
    simp [bumpAgentTotal, List.map_append,
      map_bump_of_ne db0.agents db0.nextAgentId hidne]
  refine ⟨?_, ?_, ?_⟩
  · rw [h2]
    simp only [List.countP_append]
    have hz : db0.agents.countP
        (fun ag => ag.agent_id = c1.agent_id_external) = 0 := by
      simp only [List.countP_eq_zero, decide_eq_true_eq]
      exact hagent
    simp [hz]
  · rw [h2]
    intro ag hag hagid
    simp only [List.mem_append, List.mem_singleton] at hag
    rcases hag with hag | hag
    · exact absurd hagid (hagent ag hag)
    · rw [hag]
  · rw [h2]

/-- Second witness item: same external agent id as `itemA`, different
source URL. -/
def itemB : ContentCreate :=
  { agent_id_external := "web:example.com"
    content_type := "post"
    title := "second item"
    source_url := some "https://example.com/b" }

/-- Witness for C4: two concrete items with one external agent id and two
URLs, written into the empty catalog. -/
theorem C4_agent_reuse_witness :
    (index_content (index_content DB.empty Stats.init itemA).1
        (index_content DB.empty Stats.init itemA).2.1
        itemB).1.agents.countP
      (fun ag => ag.agent_id = "web:example.com") = 1 ∧
    (∀ ag ∈ (index_content (index_content DB.empty Stats.init itemA).1
          (index_content DB.empty Stats.init itemA).2.1 itemB).1.agents,
        ag.agent_id = "web:example.com" → ag.total_creations = 2) ∧
    (index_content (index_content DB.empty Stats.init itemA).1
        (index_content DB.empty Stats.init itemA).2.1 itemB).2.1 =
      ⟨2, 0, 0⟩ :=
  C4_agent_reuse itemA itemB "web:example.com" "https://example.com/a"
    "https://example.com/b" DB.empty
    (index_content DB.empty Stats.init itemA)
    (index_content (index_content DB.empty Stats.init itemA).1
      (index_content DB.empty Stats.init itemA).2.1 itemB)
    (by rfl) (by rfl) (by rfl) (by rfl) (by decide) (by decide) (by decide)
    (by rfl) (by rfl)
    (by intro ag hag; simp [DB.empty] at hag)
    (by intro ag hag; simp [DB.empty] at hag)
    rfl rfl

/-- An indexer whose collector fetch stage raises. -/
def errorFetchSpec : IndexerSpec Nat :=
  { fetch := fun _ _ => Except.error "boom"
    parse := fun _ => Except.ok none
    commitOk := true }

/-- Counterexample for C1: with no pre-run watermark for "github" and a
fetch stage that raises, `run_indexer` does not return an error-tagged
result and does not leave the watermark at its pre-run value — it stores
the current time.  This falsifies the claim at this concrete input. -/
theorem C1_counterexample :
    ¬ (((run_indexer (fun _ => errorFetchSpec) "github" 100 [] 7
            DB.empty).2.2).isError = true ∧
       lookupWm (run_indexer (fun _ => errorFetchSpec) "github" 100 [] 7
            DB.empty).2.1 "github" = lookupWm [] "github") := by
  decide

/-- C1 as amended: when the fetch stage raises, `BaseIndexer.run` catches
the exception and rolls back, so `run_indexer` returns the plain zeroed
statistics (indexed 0, skipped 0, errors 0 — not an error-tagged payload),
the store is unchanged, and the scheduler still records the watermark as
the current time, so the watermark does advance. -/
theorem C1_amended_fetch_failure :
    ∀ (α : Type) (getSpec : String → IndexerSpec α) (platform : String)
      (limit : Nat) (st : SchedState) (now : Nat) (db : DB) (msg : String),
      KNOWN_PLATFORMS.contains platform = true →
      (getSpec platform).fetch (lookupWm st platform) limit =
        Except.error msg →
      run_indexer getSpec platform limit st now db =
        (db, setWm st platform now, RunResult.stats ⟨0, 0, 0⟩) := by
  intro α getSpec platform limit st now db msg hk hf
  have hmem : platform ∈ KNOWN_PLATFORMS := by simpa using hk
  simp [run_indexer, hmem, run, hf, Stats.init]

/-- Witness for the amended C1 at a concrete input. -/
theorem C1_amended_fetch_failure_witness :
    KNOWN_PLATFORMS.contains "github" = true ∧
    errorFetchSpec.fetch (lookupWm [] "github") 100 =
      Except.error "boom" ∧
    run_indexer (fun _ => errorFetchSpec) "github" 100 [] 7 DB.empty =
      (DB.empty, setWm [] "github" 7, RunResult.stats ⟨0, 0, 0⟩) :=
  ⟨by decide, by rfl,
   C1_amended_fetch_failure Nat (fun _ => errorFetchSpec) "github" 100 []
     7 DB.empty "boom" (by decide) (by rfl)⟩

/-- C9: `BaseIndexer.run` is total — every exception from the fetch,
parse, upsert or commit stage is caught inside `run`, so for a known
platform `run_indexer` always returns the stats payload of `run` and
always advances the watermark; its error branch is unreachable through a
failure inside the indexer's run. -/
theorem C9_run_total_no_error_branch :
    ∀ (α : Type) (getSpec : String → IndexerSpec α) (platform : String)
      (limit : Nat) (st : SchedState) (now : Nat) (db : DB),
      KNOWN_PLATFORMS.contains platform = true →
      (run_indexer getSpec platform limit st now db).2.2 =
        RunResult.stats
          (run (getSpec platform).fetch (getSpec platform).parse
            (getSpec platform).commitOk (lookupWm st platform) limit
            db).2 ∧
      (run_indexer getSpec platform limit st now db).2.1 =
        setWm st platform now := by
  intro α getSpec platform limit st now db hk
  have hmem : platform ∈ KNOWN_PLATFORMS := by simpa using hk
  simp [run_indexer, hmem]

/-- Witness for C9 at a concrete known platform. -/
theorem C9_run_total_no_error_branch_witness :
    KNOWN_PLATFORMS.contains "reddit" = true ∧
    ((run_indexer (fun _ => errorFetchSpec) "reddit" 5 [] 3
          DB.empty).2.2 =
        RunResult.stats
          (run errorFetchSpec.fetch errorFetchSpec.parse
            errorFetchSpec.commitOk (lookupWm [] "reddit") 5 DB.empty).2 ∧
      (run_indexer (fun _ => errorFetchSpec) "reddit" 5 [] 3
          DB.empty).2.1 = setWm [] "reddit" 3) :=
  ⟨by decide,
   C9_run_total_no_error_branch Nat (fun _ => errorFetchSpec) "reddit" 5
     [] 3 DB.empty (by decide)⟩

/-- Storing a watermark for one platform does not disturb the lookup of a
different platform. -/
theorem lookupWm_setWm_ne (st : SchedState) (p q : String) (t : Nat)
    (h : p ≠ q) : lookupWm (setWm st q t) p = lookupWm st p := by
  induction st with
  | nil =>
    simp [setWm, lookupWm, List.find?, Ne.symm h]
  | cons hd tl ih =>
    show lookupWm
        (if hd.1 = q then (q, t) :: tl else hd :: setWm tl q t) p =
      lookupWm (hd :: tl) p
    by_cases hq : hd.1 = q
    · rw [if_pos hq]
      have h1 : (decide ((q, t).1 = p)) = false := by
        simp [Ne.symm h]
      have h2 : (decide (hd.1 = p)) = false := by
        simp [hq, Ne.symm h]
      simp [lookupWm, List.find?, h1, h2]
    · rw [if_neg hq]
      by_cases hp : hd.1 = p
      · simp [lookupWm, List.find?, hp]
      · have h2 : (decide (hd.1 = p)) = false := by
          simp [hp]
        simp only [lookupWm, List.find?, h2] at ih ⊢
        exact ih

/-- An indexer whose collector returns no items and whose commit
succeeds. -/
def emptyFetchSpec : IndexerSpec Nat :=
  { fetch := fun _ _ => Except.ok []
    parse := fun _ => Except.ok none
    commitOk := true }

/-- Per-platform behaviour for the run-all scenario: the "reddit"
collector raises on fetch, every other collector returns no items. -/
def schedOracleB : String → IndexerSpec Nat :=
  fun p => if p = "reddit" then errorFetchSpec else emptyFetchSpec

/-- Counterexample for C6: running the sources ["github", "reddit",
"arxiv"] in sequence where the "reddit" collector raises an unhandled
exception produces a normal zero-statistics entry for "reddit", not an
error entry — the exception is swallowed inside `BaseIndexer.run`. -/
theorem C6_counterexample :
    List.lookup "reddit"
        (runSeq schedOracleB ["github", "reddit", "arxiv"] 1 [] 0
          DB.empty).1 = some (RunResult.stats ⟨0, 0, 0⟩) ∧
    RunResult.isError (RunResult.stats ⟨0, 0, 0⟩) = false := by
  decide

/-- C6 as amended: `run_all_indexers` runs its sources strictly in order
with the fixed 2-unit pause after each; a source whose collector raises on
fetch is isolated — the remaining sources still run, the failing source's
transaction is rolled back, and its entry in the result map is the normal
zeroed statistics dictionary (not an error entry, because the exception
never escapes `BaseIndexer.run`); the other sources' database writes are
intact and every source's watermark is advanced. -/
theorem C6_amended_runall_isolation :
    ∀ (α : Type) (getSpec : String → IndexerSpec α) (A B C : String)
      (limit : Nat) (st : SchedState) (now : Nat) (db : DB) (msg : String),
      KNOWN_PLATFORMS.contains A = true →
      KNOWN_PLATFORMS.contains B = true →
      KNOWN_PLATFORMS.contains C = true →
      A ≠ B → B ≠ C → A ≠ C →
      (∀ since lim, (getSpec B).fetch since lim = Except.error msg) →
      runSeq getSpec [A, B, C] limit st now db =
        ([(A, RunResult.stats
             (run (getSpec A).fetch (getSpec A).parse (getSpec A).commitOk
               (lookupWm st A) limit db).2),
          (B, RunResult.stats ⟨0, 0, 0⟩),
          (C, RunResult.stats
             (run (getSpec C).fetch (getSpec C).parse (getSpec C).commitOk
               (lookupWm st C) limit
               (run (getSpec A).fetch (getSpec A).parse
                 (getSpec A).commitOk (lookupWm st A) limit db).1).2)],
         setWm (setWm (setWm st A now) B (now + 2)) C (now + 4),
         now + 6,
         (run (getSpec C).fetch (getSpec C).parse (getSpec C).commitOk
           (lookupWm st C) limit
           (run (getSpec A).fetch (getSpec A).parse (getSpec A).commitOk
             (lookupWm st A) limit db).1).1) := by
  intro α getSpec A B C limit st now db msg hkA hkB hkC hAB hBC hAC hB
  have hmA : A ∈ KNOWN_PLATFORMS := by simpa using hkA
  have hmB : B ∈ KNOWN_PLATFORMS := by simpa using hkB
  have hmC : C ∈ KNOWN_PLATFORMS := by simpa using hkC
  have hBA : lookupWm (setWm st A now) B = lookupWm st B :=
    lookupWm_setWm_ne st B A now (Ne.symm hAB)
  have hCB : lookupWm (setWm (setWm st A now) B (now + 2)) C =
      lookupWm (setWm st A now) C :=
    lookupWm_setWm_ne (setWm st A now) C B (now + 2) (Ne.symm hBC)
  have hCA : lookupWm (setWm st A now) C = lookupWm st C :=
    lookupWm_setWm_ne st C A now (Ne.symm hAC)
  have hrunB : ∀ (d : DB),
      run (getSpec B).fetch (getSpec B).parse (getSpec B).commitOk
        (lookupWm st B) limit d = (d, Stats.init) := by
    intro d
    simp [run, hB]
  simp [runSeq, run_indexer, hmA, hmB, hmC, hBA, hCB, hCA, hrunB,
    Stats.init]

/-- Witness for the amended C6 over the concrete scenario oracle. -/
theorem C6_amended_runall_isolation_witness :
    runSeq schedOracleB ["github", "reddit", "arxiv"] 1 [] 0 DB.empty =
      ([("github", RunResult.stats
           (run (schedOracleB "github").fetch (schedOracleB "github").parse
             (schedOracleB "github").commitOk (lookupWm [] "github") 1
             DB.empty).2),
        ("reddit", RunResult.stats ⟨0, 0, 0⟩),
        ("arxiv", RunResult.stats
           (run (schedOracleB "arxiv").fetch (schedOracleB "arxiv").parse
             (schedOracleB "arxiv").commitOk (lookupWm [] "arxiv") 1
             (run (schedOracleB "github").fetch
               (schedOracleB "github").parse
               (schedOracleB "github").commitOk (lookupWm [] "github") 1
               DB.empty).1).2)],
       setWm (setWm (setWm [] "github" 0) "reddit" 2) "arxiv" 4,
       6,
       (run (schedOracleB "arxiv").fetch (schedOracleB "arxiv").parse
         (schedOracleB "arxiv").commitOk (lookupWm [] "arxiv") 1
         (run (schedOracleB "github").fetch (schedOracleB "github").parse
           (schedOracleB "github").commitOk (lookupWm [] "github") 1
           DB.empty).1).1) :=
  C6_amended_runall_isolation Nat schedOracleB "github" "reddit" "arxiv" 1
    [] 0 DB.empty "boom" (by decide) (by decide) (by decide) (by decide)
    (by decide) (by decide) (fun since lim => rfl)

/-- The Reddit loop stops at the first 429: once a 429 status arrives, no
further subreddit request is issued in the run, and the items returned are
exactly the partial results gathered before the 429. -/
theorem redditAux_stop_on_429 :
    ∀ (α : Type) (resp : String → Nat → Except String (SubredditResp α))
      (pre : List String) (s : String) (post : List String) (perSub : Nat)
      (v : SubredditResp α),
      resp s perSub = Except.ok v → v.status = 429 →
      (∀ t ∈ pre, ∀ w, resp t perSub = Except.ok w → w.status ≠ 429) →
      (redditFetchAux resp (pre ++ s :: post) perSub).2 =
          pre.length + 1 ∧
        (redditFetchAux resp (pre ++ s :: post) perSub).1 =
          (redditFetchAux resp pre perSub).1 := by
  intro α resp pre s post perSub v hv h429
  induction pre with
  | nil =>
    intro _
    constructor
    · simp [redditFetchAux, hv, h429]
    · simp [redditFetchAux, hv, h429]
  | cons x rest ih =>
    intro hpre
    have hrest : ∀ t ∈ rest, ∀ w,
        resp t perSub = Except.ok w → w.status ≠ 429 :=
      fun t ht w hw => hpre t (List.mem_cons_of_mem x ht) w hw
    have ih' := ih hrest
    cases hx : resp x perSub with
    | error e =>
      constructor
      · simp [List.cons_append, redditFetchAux, hx, ih'.1]
      · simp [List.cons_append, redditFetchAux, hx, ih'.2]
    | ok w =>
      have hw429 : w.status ≠ 429 := hpre x (List.mem_cons_self x rest) w hx
      by_cases hw200 : w.status = 200
      · constructor
        · simp [List.cons_append, redditFetchAux, hx, hw200, ih'.1]
        · simp [List.cons_append, redditFetchAux, hx, hw200, ih'.2]
      · constructor
        · simp [List.cons_append, redditFetchAux, hx, hw200, hw429, ih'.1]
        · simp [List.cons_append, redditFetchAux, hx, hw200, hw429, ih'.2]

/-- The GitHub loop stops at the first 403: once a 403 status arrives, no
further keyword request is issued in the run, and the items returned are
exactly the partial results gathered before the 403. -/
theorem githubAux_stop_on_403 :
    ∀ (α : Type)
      (resp : String → Option Nat → Nat → Except String (GithubResp α))
      (pre : List String) (k : String) (post : List String)
      (since : Option Nat) (perPage : Nat) (v : GithubResp α),
      resp k since perPage = Except.ok v → v.status = 403 →
      (∀ t ∈ pre, ∀ w,
        resp t since perPage = Except.ok w → w.status ≠ 403) →
      (githubFetchAux resp (pre ++ k :: post) since perPage).2 =
          pre.length + 1 ∧
        (githubFetchAux resp (pre ++ k :: post) since perPage).1 =
          (githubFetchAux resp pre since perPage).1 := by
  intro α resp pre k post since perPage v hv h403
  induction pre with
  | nil =>
    intro _
    constructor
    · simp [githubFetchAux, hv, h403]
    · simp [githubFetchAux, hv, h403]
  | cons x rest ih =>
    intro hpre
    have hrest : ∀ t ∈ rest, ∀ w,
        resp t since perPage = Except.ok w → w.status ≠ 403 :=
      fun t ht w hw => hpre t (List.mem_cons_of_mem x ht) w hw
    have ih' := ih hrest
    cases hx : resp x since perPage with
    | error e =>
      constructor
      · simp [List.cons_append, githubFetchAux, hx, ih'.1]
      · simp [List.cons_append, githubFetchAux, hx, ih'.2]
    | ok w =>
      have hw403 : w.status ≠ 403 := hpre x (List.mem_cons_self x rest) w hx
      by_cases hw200 : w.status = 200
      · constructor
        · simp [List.cons_append, githubFetchAux, hx, hw200, ih'.1]
        · simp [List.cons_append, githubFetchAux, hx, hw200, ih'.2]
      · constructor
        · simp [List.cons_append, githubFetchAux, hx, hw200, hw403, ih'.1]
        · simp [List.cons_append, githubFetchAux, hx, hw200, hw403, ih'.2]

/-- An upstream that answers 403 to every Reddit listing request. -/
def all403Resp : String → Nat → Except String (SubredditResp Nat) :=
  fun _ _ => Except.ok ⟨403, []⟩

/-- Counterexample for C7: the very first Reddit request returns 403 — a
rate-limit signal per the claim — yet the collector issues all 5 subreddit
requests in the run instead of stopping after the first. -/
theorem C7_counterexample :
    all403Resp "LocalLLaMA" (10 / 5) = Except.ok ⟨403, []⟩ ∧
    (reddit_fetch_content all403Resp none 10).2 = 5 ∧
    (reddit_fetch_content all403Resp none 10).2 ≠ 1 := by
  refine ⟨rfl, by decide, by decide⟩

/-- C7 as amended: each collector stops on its own single rate-limit
status — Reddit breaks the run on HTTP 429 (but keeps going on 403),
GitHub breaks on HTTP 403 (but keeps going on 429).  Once the respective
signal is detected, no further request goes to that upstream in the run,
the partial results gathered before the signal are returned, and the
rate-limited request is not retried. -/
theorem C7_amended_rate_limit_stop :
    (∀ (α : Type) (resp : String → Nat → Except String (SubredditResp α))
        (pre : List String) (s : String) (post : List String)
        (perSub : Nat) (v : SubredditResp α),
        resp s perSub = Except.ok v → v.status = 429 →
        (∀ t ∈ pre, ∀ w, resp t perSub = Except.ok w → w.status ≠ 429) →
        (redditFetchAux resp (pre ++ s :: post) perSub).2 =
            pre.length + 1 ∧
          (redditFetchAux resp (pre ++ s :: post) perSub).1 =
            (redditFetchAux resp pre perSub).1) ∧
    (∀ (α : Type)
        (resp : String → Option Nat → Nat → Except String (GithubResp α))
        (pre : List String) (k : String) (post : List String)
        (since : Option Nat) (perPage : Nat) (v : GithubResp α),
        resp k since perPage = Except.ok v → v.status = 403 →
        (∀ t ∈ pre, ∀ w,
          resp t since perPage = Except.ok w → w.status ≠ 403) →
        (githubFetchAux resp (pre ++ k :: post) since perPage).2 =
            pre.length + 1 ∧
          (githubFetchAux resp (pre ++ k :: post) since perPage).1 =
            (githubFetchAux resp pre since perPage).1) :=
  ⟨redditAux_stop_on_429, githubAux_stop_on_403⟩

/-- An upstream that answers 429 to every Reddit listing request. -/
def all429Resp : String → Nat → Except String (SubredditResp Nat) :=
  fun _ _ => Except.ok ⟨429, []⟩

/-- An upstream that answers 403 to every GitHub search request. -/
def all403GhResp : String → Option Nat → Nat → Except String (GithubResp Nat) :=
  fun _ _ _ => Except.ok ⟨403, []⟩

/-- Witness for the amended C7: both halves applied at concrete inputs
with the stop status arriving on the first request. -/
theorem C7_amended_rate_limit_stop_witness :
    ((redditFetchAux all429Resp
          (([] : List String) ++ "LocalLLaMA" :: ["ChatGPT"]) 2).2 =
        ([] : List String).length + 1 ∧
      (redditFetchAux all429Resp
          (([] : List String) ++ "LocalLLaMA" :: ["ChatGPT"]) 2).1 =
        (redditFetchAux all429Resp ([] : List String) 2).1) ∧
    ((githubFetchAux all403GhResp
          (([] : List String) ++ "ai-agent" :: ["autonomous-agent"]) none
          2).2 = ([] : List String).length + 1 ∧
      (githubFetchAux all403GhResp
          (([] : List String) ++ "ai-agent" :: ["autonomous-agent"]) none
          2).1 =
        (githubFetchAux all403GhResp ([] : List String) none 2).1) :=
  ⟨C7_amended_rate_limit_stop.1 Nat all429Resp [] "LocalLLaMA" ["ChatGPT"]
     2 ⟨429, []⟩ rfl rfl (fun t ht => absurd ht (List.not_mem_nil t)),
   C7_amended_rate_limit_stop.2 Nat all403GhResp [] "ai-agent"
     ["autonomous-agent"] none 2 ⟨403, []⟩ rfl rfl
     (fun t ht => absurd ht (List.not_mem_nil t))⟩

end Tube
